import Mathlib

/-
  Verification of the prefect-fivetran connector-sync logic.

  Shallow embedding of the repository sources:
    prefect_fivetran/clients.py     (FivetranClient)
    prefect_fivetran/connectors.py  (tasks and flows)
    prefect_fivetran/credentials.py (FivetranCredentials)

  Timestamps are modelled as integers (seconds since the Unix epoch):
  an ISO-8601 string that pendulum parses to the instant t is modelled
  as `some t`, a JSON null / Python None as `none`.
  `pendulum.from_timestamp(-1)` is the instant -1 in this model.

  Network effects are made explicit: each task takes a `RemoteEnv`
  describing what the remote API would answer, and returns, next to its
  result, the list of HTTP requests it issued, in order.
-/

namespace PrefectFivetran

/-- Snapshot of remote connector state, the `data` object of a
`GET /v1/connectors/id` response (spec section 3, used throughout
connectors.py and clients.py). -/
structure ConnectorDetails where
  service : String
  schema : String
  setup_state : String
  sync_state : String
  schedule_type : String
  paused : Bool
  succeeded_at : Option Int
  failed_at : Option Int
  deriving Repr, DecidableEq

/-- Error taxonomy of spec section 7. Every raise site in the Python
source raises ValueError; the constructor records which taxon the spec
assigns to that raise site, and the payload is the exact message the
source builds. -/
inductive FivetranError where
  | invalidArgument (msg : String)
  | configurationError (msg : String)
  | syncFailed (msg : String)
  deriving Repr, DecidableEq

/-- An HTTP request issued against the remote API (spec section 6). -/
inductive Request where
  | get (connector_id : String)
  | patchScheduleType (connector_id : String) (schedule_type : String)
  | patchPaused (connector_id : String) (paused : Bool)
  | postForce (connector_id : String)
  deriving Repr, DecidableEq

/-- What the remote API answers: the connector details returned by a
`get` for a given connector id. Mutating requests (patch, force) are
recorded in the request trace; their response bodies are not inspected
by the code under verification except where noted. -/
def RemoteEnv := String → ConnectorDetails

/-- FivetranClient.parse_timestamp (clients.py lines 42-51):
pendulum.parse of the value when it is not None, otherwise
pendulum.from_timestamp(-1), the far-past sentinel. -/
def parse_timestamp : Option Int → Int
  | some t => t
  | none => -1

/-- The completion-time expression the source repeats
(connectors.py lines 265-267, 196-201):
`succeeded_at if succeeded_at > failed_at else failed_at`
applied to the two parsed timestamps. -/
def last_completed_at (succeeded_at failed_at : Option Int) : Int :=
  if parse_timestamp succeeded_at > parse_timestamp failed_at then
    parse_timestamp succeeded_at
  else
    parse_timestamp failed_at

/-- Dashboard logs URL (connectors.py line 273, clients.py lines 71-73). -/
def urlLogs (service schema : String) : String :=
  "https://fivetran.com/dashboard/connectors/" ++ service ++ "/" ++ schema ++ "/logs"

/-- Dashboard setup URL (connectors.py lines 60-62). -/
def urlSetup (service schema : String) : String :=
  "https://fivetran.com/dashboard/connectors/" ++ service ++ "/" ++ schema ++ "/setup"

/-- Message of the SyncFailedError raised in
wait_for_fivetran_connector_sync (connectors.py lines 271-274). -/
def syncFailedMsg (connector_id : String) (d : ConnectorDetails) : String :=
  "Fivetran sync for connector \"" ++ connector_id ++ "\" failed. " ++
    "Please see logs at " ++ urlLogs d.service d.schema

/-- Message of the ConfigurationError raised in
verify_fivetran_connector_status (connectors.py lines 65-69). -/
def excSetupMsg (connector_id setup_state url : String) : String :=
  "Fivetran connector \"" ++ connector_id ++ "\" not correctly configured, status: " ++
    setup_state ++ "; please complete setup at " ++ url

/-- Outcome of the poll-to-completion loop on a finite trace of polls:
it returns the success record, raises SyncFailedError, or is still
polling when the trace runs out. -/
inductive SyncOutcome where
  | success (connector_id : String) (succeeded_at : Int)
  | failure (e : FivetranError)
  | pending
  deriving Repr, DecidableEq

/-- wait_for_fivetran_connector_sync (connectors.py lines 213-295),
run against a trace of poll responses: each loop iteration consumes one
`get` response from the head of the list.  Per iteration the source
parses both timestamps, takes their maximum as `current_completed_at`,
raises SyncFailedError when the parsed failed_at exceeds the parsed
previous_completed_at, exits the loop returning the parsed succeeded_at
when current_completed_at exceeds it, and otherwise sleeps and polls
again.  An exhausted trace means the loop is still running (`pending`). -/
def wait_for_fivetran_connector_sync
    (connector_id : String) (previous_completed_at : Option Int) :
    List ConnectorDetails → SyncOutcome
  | [] => .pending
  | d :: rest =>
    let succeeded_at := parse_timestamp d.succeeded_at
    let failed_at := parse_timestamp d.failed_at
    let current_completed_at :=
      if succeeded_at > failed_at then succeeded_at else failed_at
    if failed_at > parse_timestamp previous_completed_at then
      .failure (.syncFailed (syncFailedMsg connector_id d))
    else if current_completed_at > parse_timestamp previous_completed_at then
      .success connector_id succeeded_at
    else
      wait_for_fivetran_connector_sync connector_id previous_completed_at rest

/-- verify_fivetran_connector_status (connectors.py lines 17-71):
reject an empty connector id before any network call, fetch the
details, and raise a ConfigurationError carrying the dashboard setup
URL unless setup_state is "connected".  Next to the result, the list of
issued requests is returned. -/
def verify_fivetran_connector_status (env : RemoteEnv) (connector_id : String) :
    Except FivetranError ConnectorDetails × List Request :=
  if connector_id = "" then
    (.error (.invalidArgument "Value for parameter `connector_id` must be provided."), [])
  else
    let connector_details := env connector_id
    let URL_SETUP := urlSetup connector_details.service connector_details.schema
    if connector_details.setup_state ≠ "connected" then
      (.error (.configurationError
        (excSetupMsg connector_id connector_details.setup_state URL_SETUP)),
        [.get connector_id])
    else
      (.ok connector_details, [.get connector_id])

/-- set_fivetran_connector_schedule (connectors.py lines 79-135):
reject a schedule_type outside manual or auto before any network call;
otherwise fetch the details and issue a patch only when the fetched
schedule_type differs from the requested one, returning the patch
response (the Python function falls through returning None when no
patch is needed). -/
def set_fivetran_connector_schedule (env : RemoteEnv)
    (connector_id : String) (schedule_type : String) :
    Except FivetranError (Option ConnectorDetails) × List Request :=
  if schedule_type ∉ ["manual", "auto"] then
    (.error (.invalidArgument "schedule_type must be either \"manual\" or \"auto\""), [])
  else
    let connector_details := env connector_id
    if connector_details.schedule_type ≠ schedule_type then
      (.ok (some { connector_details with schedule_type := schedule_type }),
        [.get connector_id, .patchScheduleType connector_id schedule_type])
    else
      (.ok none, [.get connector_id])

/-- start_fivetran_connector_sync (connectors.py lines 144-204):
fetch the details, unpause when paused, substitute `now` for
succeeded_at when both timestamps are absent, compute the baseline
`last_sync` by the parse-and-compare expression, force-trigger the
sync, and return `last_sync`.  `now` is the value of pendulum.now() at
the call. -/
def start_fivetran_connector_sync (env : RemoteEnv)
    (connector_id : String) (now : Int) :
    Option Int × List Request :=
  let connector_details := env connector_id
  let succeeded_at := connector_details.succeeded_at
  let failed_at := connector_details.failed_at
  let pause_requests :=
    if connector_details.paused then [Request.patchPaused connector_id false] else []
  let succeeded_at :=
    if succeeded_at = none ∧ failed_at = none then some now else succeeded_at
  let last_sync :=
    if parse_timestamp succeeded_at > parse_timestamp failed_at then
      succeeded_at
    else
      failed_at
  (last_sync,
    [Request.get connector_id] ++ pause_requests ++ [Request.postForce connector_id])

/-- Kinds of Python runtime values that decide the control flow under
verification: None, strings, and the coroutine object produced by
calling an async function without awaiting it. -/
inductive PyValue where
  | none
  | str (s : String)
  | coroutine (func : String)
  deriving Repr, DecidableEq

/-- Python truthiness for the values above: None is falsy, a string is
truthy iff non-empty, and a coroutine object is always truthy because
object.__bool__ is the default. -/
def py_truthy : PyValue → Bool
  | .none => false
  | .str s => s ≠ ""
  | .coroutine _ => true

/-- verify_and_start_fivetran_connector_sync (connectors.py lines
304-377).  The source tests `if verify_fivetran_connector_status(...)`
without awaiting: the call merely creates a coroutine object (issuing
no request and raising nothing), and that object is the condition.
When the condition is truthy the flow awaits the schedule step and then
the trigger step, returning the trigger result; otherwise the Python
function returns None, modelled as `.ok none` since the trigger result
is itself an optional timestamp. -/
def verify_and_start_fivetran_connector_sync (env : RemoteEnv)
    (connector_id : String) (schedule_type : String) (now : Int) :
    Except FivetranError (Option Int) :=
  let verify_coro := PyValue.coroutine "verify_fivetran_connector_status"
  if py_truthy verify_coro then
    match (set_fivetran_connector_schedule env connector_id schedule_type).1 with
    | .error e => .error e
    | .ok _ => .ok (start_fivetran_connector_sync env connector_id now).1
  else
    .ok none

/-- Python-level errors relevant to object construction. -/
inductive PyError where
  | attributeError (attr : String)
  | valueError (msg : String)
  deriving Repr, DecidableEq

/-- Python attribute lookup on an instance whose attribute dictionary
is the given association list: a missing attribute raises
AttributeError (the FivetranClient class defines no data attributes,
so only the instance dictionary matters). -/
def py_getattr (attrs : List (String × PyValue)) (attr : String) :
    Except PyError PyValue :=
  match attrs.lookup attr with
  | some v => .ok v
  | Option.none => .error (.attributeError attr)

/-- FivetranClient.__init__ (clients.py lines 22-40).  On a fresh
instance the attribute dictionary is empty.  The first statement,
`if not self.api_key:`, reads the api_key attribute, which has never
been assigned; only if that lookup and the corresponding api_secret
lookup were to succeed would the constructor go on to assign
api_user_agent and the requests session (the session object itself is
outside the model) and finish. -/
def FivetranClient_init (api_key api_secret : String) :
    Except PyError (List (String × PyValue)) := do
  let self : List (String × PyValue) := []
  let v ← py_getattr self "api_key"
  if ¬ py_truthy v then
    throw (.valueError "Value for parameter `api_key` must be provided.")
  let v' ← py_getattr self "api_secret"
  if ¬ py_truthy v' then
    throw (.valueError "Value for parameter `api_secret` must be provided.")
  pure [("api_user_agent", PyValue.str "prefect-collection/1.0.0"),
    ("api_key", PyValue.str api_key), ("api_secret", PyValue.str api_secret)]

/-- FivetranCredentials.get_fivetran (credentials.py lines 51-58):
constructs a FivetranClient from the two secret values. -/
def FivetranCredentials_get_fivetran (api_key api_secret : String) :
    Except PyError (List (String × PyValue)) :=
  FivetranClient_init api_key api_secret

/-- A string occurs inside another: s = p ++ sub ++ q. -/
def containsSub (s sub : String) : Prop :=
  ∃ p q, s = p ++ sub ++ q

/-- C3, counterexample.  The claim asserts parse_timestamp(null) is
strictly less than parse_timestamp(t) for EVERY well-formed ISO-8601
timestamp t; but the sentinel is pendulum.from_timestamp(-1), one
second before the Unix epoch, so a genuine ISO-8601 instant two seconds
before the epoch (1969-12-31T23:59:58Z, modelled as -2) parses strictly
below the sentinel and the sentinel wins that comparison. -/
theorem parse_timestamp_sentinel_not_minimal :
    ¬ parse_timestamp none < parse_timestamp (some (-2)) := by
  decide

/-- C3, amended.  The completion-time expression
`succeeded_at if succeeded_at > failed_at else failed_at` over the two
parsed timestamps is commutative (it is max), and the null sentinel is
strictly below every timestamp strictly after the sentinel instant
epoch-1 — so null never wins against any post-1969-12-31T23:59:59Z
timestamp. -/
theorem parse_timestamp_max_comm_and_sentinel :
    (∀ a b : Option Int, last_completed_at a b = last_completed_at b a)
    ∧ (∀ t : Int, -1 < t → parse_timestamp none < parse_timestamp (some t)) := by
  constructor
  · intro a b
    unfold last_completed_at
    split <;> split <;> omega
  · intro t ht
    simpa [parse_timestamp] using ht

/-- C3, witness: the amended theorem applied at concrete inputs. -/
theorem parse_timestamp_max_comm_and_sentinel_witness :
    last_completed_at (some 3) none = last_completed_at none (some 3)
    ∧ parse_timestamp none < parse_timestamp (some 5) :=
  ⟨parse_timestamp_max_comm_and_sentinel.1 (some 3) none,
   parse_timestamp_max_comm_and_sentinel.2 5 (by decide)⟩

/-- C4: when a connector has never run (both succeeded_at and
failed_at are null), the trigger step substitutes the current time for
succeeded_at, and since now is after the sentinel the returned
baseline is exactly now, not the far-past sentinel. -/
theorem start_sync_never_run_baseline_now
    (env : RemoteEnv) (connector_id : String) (now : Int)
    (hs : (env connector_id).succeeded_at = none)
    (hf : (env connector_id).failed_at = none)
    (hnow : -1 < now) :
    (start_fivetran_connector_sync env connector_id now).1 = some now := by
  unfold start_fivetran_connector_sync
  simp only [hs, hf, parse_timestamp]
  simp [parse_timestamp, hnow]

/-- C4, witness: a concrete never-run connector at now = 100. -/
theorem start_sync_never_run_baseline_now_witness :
    (start_fivetran_connector_sync
      (fun _ => ⟨"srv", "sch", "connected", "scheduled", "auto", false, none, none⟩)
      "c1" 100).1 = some 100 :=
  start_sync_never_run_baseline_now
    (fun _ => ⟨"srv", "sch", "connected", "scheduled", "auto", false, none, none⟩)
    "c1" 100 rfl rfl (by decide)

/-- C6: for every connector whose setup_state is not "connected", the
verification task raises a ConfigurationError whose message contains
the connector id, the setup_state, and the dashboard setup URL built
from the connector service and schema fields. -/
theorem verify_not_connected_configuration_error
    (env : RemoteEnv) (connector_id : String)
    (hid : connector_id ≠ "")
    (hstate : (env connector_id).setup_state ≠ "connected") :
    verify_fivetran_connector_status env connector_id
      = (.error (.configurationError (excSetupMsg connector_id
          (env connector_id).setup_state
          (urlSetup (env connector_id).service (env connector_id).schema))),
         [.get connector_id])
    ∧ containsSub
        (excSetupMsg connector_id (env connector_id).setup_state
          (urlSetup (env connector_id).service (env connector_id).schema))
        connector_id
    ∧ containsSub
        (excSetupMsg connector_id (env connector_id).setup_state
          (urlSetup (env connector_id).service (env connector_id).schema))
        (env connector_id).setup_state
    ∧ containsSub
        (excSetupMsg connector_id (env connector_id).setup_state
          (urlSetup (env connector_id).service (env connector_id).schema))
        (urlSetup (env connector_id).service (env connector_id).schema) := by
  refine ⟨?_, ?_, ?_, ?_⟩
  · unfold verify_fivetran_connector_status
    rw [if_neg hid, if_pos hstate]
  · exact ⟨"Fivetran connector \"",
      "\" not correctly configured, status: " ++ (env connector_id).setup_state ++
        "; please complete setup at " ++
        urlSetup (env connector_id).service (env connector_id).schema,
      by simp [excSetupMsg, String.append_assoc]⟩
  · exact ⟨"Fivetran connector \"" ++ connector_id ++
        "\" not correctly configured, status: ",
      "; please complete setup at " ++
        urlSetup (env connector_id).service (env connector_id).schema,
      by simp [excSetupMsg, String.append_assoc]⟩
  · exact ⟨"Fivetran connector \"" ++ connector_id ++
        "\" not correctly configured, status: " ++ (env connector_id).setup_state ++
        "; please complete setup at ", "",
      by simp [excSetupMsg, String.append_assoc, String.append_empty]⟩

/-- C6, witness: a concrete incomplete connector. -/
theorem verify_not_connected_configuration_error_witness :
    verify_fivetran_connector_status
      (fun _ => ⟨"srv", "sch", "incomplete", "scheduled", "manual", false, none, none⟩)
      "c1"
      = (.error (.configurationError (excSetupMsg "c1" "incomplete"
          (urlSetup "srv" "sch"))), [.get "c1"]) :=
  (verify_not_connected_configuration_error
    (fun _ => ⟨"srv", "sch", "incomplete", "scheduled", "manual", false, none, none⟩)
    "c1" (by decide) (by decide)).1

/-- C7: a schedule_type outside manual and auto is rejected with an
InvalidArgument before any network request: the request trace is
empty. -/
theorem set_schedule_invalid_argument_no_requests
    (env : RemoteEnv) (connector_id schedule_type : String)
    (h : schedule_type ∉ ["manual", "auto"]) :
    set_fivetran_connector_schedule env connector_id schedule_type
      = (.error (.invalidArgument
          "schedule_type must be either \"manual\" or \"auto\""), []) := by
  unfold set_fivetran_connector_schedule
  rw [if_pos h]

/-- C7, witness: the invalid schedule_type "weekly". -/
theorem set_schedule_invalid_argument_no_requests_witness :
    set_fivetran_connector_schedule
      (fun _ => ⟨"srv", "sch", "connected", "scheduled", "manual", false, none, none⟩)
      "c1" "weekly"
      = (.error (.invalidArgument
          "schedule_type must be either \"manual\" or \"auto\""), []) :=
  set_schedule_invalid_argument_no_requests
    (fun _ => ⟨"srv", "sch", "connected", "scheduled", "manual", false, none, none⟩)
    "c1" "weekly" (by decide)

/-- C8: when the fetched schedule_type already equals the (valid)
requested value, the schedule step issues exactly one request, the
initial get — in particular no patch, so the remote state is not
mutated by this step. -/
theorem set_schedule_noop_only_get
    (env : RemoteEnv) (connector_id schedule_type : String)
    (hvalid : schedule_type ∈ ["manual", "auto"])
    (heq : (env connector_id).schedule_type = schedule_type) :
    set_fivetran_connector_schedule env connector_id schedule_type
      = (.ok none, [.get connector_id])
    ∧ ∀ st, Request.patchScheduleType connector_id st
        ∉ (set_fivetran_connector_schedule env connector_id schedule_type).2 := by
  have hmain : set_fivetran_connector_schedule env connector_id schedule_type
      = (.ok none, [.get connector_id]) := by
    unfold set_fivetran_connector_schedule
    rw [if_neg (not_not_intro hvalid), if_neg (not_not_intro heq)]
  refine ⟨hmain, ?_⟩
  intro st hmem
  rw [hmain] at hmem
  simp at hmem

/-- C8, witness: a connector already on manual scheduling. -/
theorem set_schedule_noop_only_get_witness :
    set_fivetran_connector_schedule
      (fun _ => ⟨"srv", "sch", "connected", "scheduled", "manual", false, none, none⟩)
      "c1" "manual"
      = (.ok none, [.get "c1"]) :=
  (set_schedule_noop_only_get
    (fun _ => ⟨"srv", "sch", "connected", "scheduled", "manual", false, none, none⟩)
    "c1" "manual" (by decide) (by decide)).1

/-- C9: FivetranClient.__init__ reads self.api_key before anything is
ever assigned to it, so constructing a FivetranClient raises
AttributeError for every pair of credential strings, and
FivetranCredentials.get_fivetran can therefore never return a client. -/
theorem fivetran_client_init_always_attribute_error
    (api_key api_secret : String) :
    FivetranClient_init api_key api_secret = .error (.attributeError "api_key")
    ∧ ∀ attrs, FivetranCredentials_get_fivetran api_key api_secret ≠ .ok attrs := by
  refine ⟨rfl, ?_⟩
  intro attrs h
  unfold FivetranCredentials_get_fivetran at h
  rw [show FivetranClient_init api_key api_secret
      = .error (.attributeError "api_key") from rfl] at h
  exact Except.noConfusion h

/-- C10: in verify_and_start_fivetran_connector_sync the verification
call is not awaited, so the condition is a coroutine object, which is
always truthy; the flow therefore proceeds to the schedule and trigger
steps for every input — even when the connector setup_state is not
"connected", where an awaited verification would have raised a
ConfigurationError — and no ConfigurationError can ever propagate out
of this flow. -/
theorem verify_and_start_skips_verification
    (env : RemoteEnv) (connector_id schedule_type : String) (now : Int)
    (hid : connector_id ≠ "")
    (hstate : (env connector_id).setup_state ≠ "connected") :
    (∃ m, (verify_fivetran_connector_status env connector_id).1
        = .error (.configurationError m))
    ∧ verify_and_start_fivetran_connector_sync env connector_id schedule_type now
        = (match (set_fivetran_connector_schedule env connector_id schedule_type).1 with
           | .error e => .error e
           | .ok _ => .ok (start_fivetran_connector_sync env connector_id now).1)
    ∧ ∀ m, verify_and_start_fivetran_connector_sync env connector_id schedule_type now
        ≠ .error (.configurationError m) := by
  refine ⟨?_, rfl, ?_⟩
  · have hv : verify_fivetran_connector_status env connector_id
        = (.error (.configurationError (excSetupMsg connector_id
            (env connector_id).setup_state
            (urlSetup (env connector_id).service (env connector_id).schema))),
           [.get connector_id]) := by
      unfold verify_fivetran_connector_status
      rw [if_neg hid, if_pos hstate]
    exact ⟨_, congrArg Prod.fst hv⟩
  · intro m h
    unfold verify_and_start_fivetran_connector_sync at h
    simp only [py_truthy, if_true] at h
    unfold set_fivetran_connector_schedule at h
    by_cases hv : schedule_type ∉ ["manual", "auto"]
    · rw [if_pos hv] at h
      exact FivetranError.noConfusion (Except.error.inj h)
    · rw [if_neg hv] at h
      by_cases hd : (env connector_id).schedule_type ≠ schedule_type
      · rw [if_pos hd] at h
        exact Except.noConfusion h
      · rw [if_neg hd] at h
        exact Except.noConfusion h

/-- C10, witness: a connector with incomplete setup still reaches the
trigger step and the flow returns its baseline. -/
theorem verify_and_start_skips_verification_witness :
    verify_and_start_fivetran_connector_sync
      (fun _ => ⟨"srv", "sch", "incomplete", "scheduled", "manual", false, some 7, none⟩)
      "c1" "manual" 100
      ≠ .error (.configurationError (excSetupMsg "c1" "incomplete"
          (urlSetup "srv" "sch"))) :=
  (verify_and_start_skips_verification
    (fun _ => ⟨"srv", "sch", "incomplete", "scheduled", "manual", false, some 7, none⟩)
    "c1" "manual" 100 (by decide) (by decide)).2.2 _

/-- One unfolding step of the polling loop. -/
theorem wait_cons (connector_id : String) (prev : Option Int)
    (d : ConnectorDetails) (rest : List ConnectorDetails) :
    wait_for_fivetran_connector_sync connector_id prev (d :: rest)
      = if parse_timestamp d.failed_at > parse_timestamp prev then
          .failure (.syncFailed (syncFailedMsg connector_id d))
        else if (if parse_timestamp d.succeeded_at > parse_timestamp d.failed_at
                 then parse_timestamp d.succeeded_at
                 else parse_timestamp d.failed_at) > parse_timestamp prev then
          .success connector_id (parse_timestamp d.succeeded_at)
        else
          wait_for_fivetran_connector_sync connector_id prev rest := rfl

/-- C1: on every poll trace whose failed_at stays at or below the
baseline on every poll while succeeded_at eventually exceeds the
baseline, the polling loop returns success carrying that succeeded_at
and never raises SyncFailedError: a stale failure timestamp is never
misreported as a fresh failure. -/
theorem wait_stale_failure_not_misreported
    (connector_id : String) (previous_completed_at : Option Int)
    (polls : List ConnectorDetails)
    (hfail : ∀ d ∈ polls,
      parse_timestamp d.failed_at ≤ parse_timestamp previous_completed_at)
    (hsucc : ∃ d ∈ polls,
      parse_timestamp previous_completed_at < parse_timestamp d.succeeded_at) :
    (∃ d ∈ polls,
      parse_timestamp previous_completed_at < parse_timestamp d.succeeded_at
      ∧ wait_for_fivetran_connector_sync connector_id previous_completed_at polls
          = .success connector_id (parse_timestamp d.succeeded_at))
    ∧ ∀ e, wait_for_fivetran_connector_sync connector_id previous_completed_at polls
        ≠ .failure e := by
  induction polls with
  | nil =>
    obtain ⟨d, hd, _⟩ := hsucc
    exact absurd hd (List.not_mem_nil d)
  | cons d rest ih =>
    have hfd := hfail d (List.mem_cons_self d rest)
    have hnotfail :
        ¬ parse_timestamp d.failed_at > parse_timestamp previous_completed_at :=
      not_lt.mpr hfd
    by_cases hsd :
        parse_timestamp previous_completed_at < parse_timestamp d.succeeded_at
    · have hgt : parse_timestamp d.succeeded_at > parse_timestamp d.failed_at :=
        lt_of_le_of_lt hfd hsd
      have hcur : (if parse_timestamp d.succeeded_at > parse_timestamp d.failed_at
          then parse_timestamp d.succeeded_at else parse_timestamp d.failed_at)
          > parse_timestamp previous_completed_at := by
        rw [if_pos hgt]; exact hsd
      have heq : wait_for_fivetran_connector_sync connector_id
          previous_completed_at (d :: rest)
          = .success connector_id (parse_timestamp d.succeeded_at) := by
        rw [wait_cons, if_neg hnotfail, if_pos hcur]
      refine ⟨⟨d, List.mem_cons_self d rest, hsd, heq⟩, ?_⟩
      intro e he
      rw [heq] at he
      exact SyncOutcome.noConfusion he
    · have hcur : ¬ (if parse_timestamp d.succeeded_at > parse_timestamp d.failed_at
          then parse_timestamp d.succeeded_at else parse_timestamp d.failed_at)
          > parse_timestamp previous_completed_at := by
        by_cases hg : parse_timestamp d.succeeded_at > parse_timestamp d.failed_at
        · rw [if_pos hg]; exact hsd
        · rw [if_neg hg]; exact hnotfail
      have hstep : wait_for_fivetran_connector_sync connector_id
          previous_completed_at (d :: rest)
          = wait_for_fivetran_connector_sync connector_id
              previous_completed_at rest := by
        rw [wait_cons, if_neg hnotfail, if_neg hcur]
      have hfail' : ∀ p ∈ rest,
          parse_timestamp p.failed_at ≤ parse_timestamp previous_completed_at :=
        fun p hp => hfail p (List.mem_cons_of_mem d hp)
      have hsucc' : ∃ p ∈ rest,
          parse_timestamp previous_completed_at < parse_timestamp p.succeeded_at := by
        obtain ⟨p, hp, hps⟩ := hsucc
        rcases List.mem_cons.mp hp with h | h
        · exact absurd (h ▸ hps) hsd
        · exact ⟨p, h, hps⟩
      obtain ⟨⟨p, hp, h1, h2⟩, hnf⟩ := ih hfail' hsucc'
      refine ⟨⟨p, List.mem_cons_of_mem d hp, h1, hstep ▸ h2⟩, ?_⟩
      intro e he
      exact hnf e (hstep ▸ he)

/-- C1, witness: baseline 0, one poll with a fresh success at 5 and a
null failed_at; the theorem applied there shows no SyncFailedError. -/
theorem wait_stale_failure_not_misreported_witness :
    wait_for_fivetran_connector_sync "c1" (some 0)
      [⟨"srv", "sch", "connected", "scheduled", "manual", false, some 5, none⟩]
      ≠ .failure (.syncFailed (syncFailedMsg "c1"
          ⟨"srv", "sch", "connected", "scheduled", "manual", false, some 5, none⟩)) :=
  (wait_stale_failure_not_misreported "c1" (some 0)
    [⟨"srv", "sch", "connected", "scheduled", "manual", false, some 5, none⟩]
    (by decide) (by decide)).2 _

/-- C5: whenever the polling loop exits successfully, the returned
record carries the given connector id and a timestamp strictly above
the baseline which is simultaneously the parsed succeeded_at of the
final poll and the max of parsed succeeded_at and failed_at there,
the two coinciding because a failed_at above the baseline would have
been raised as SyncFailedError first. -/
theorem wait_success_returns_final_max
    (connector_id id' : String) (prev : Option Int)
    (polls : List ConnectorDetails) (s : Int)
    (h : wait_for_fivetran_connector_sync connector_id prev polls
      = .success id' s) :
    parse_timestamp prev < s
    ∧ id' = connector_id
    ∧ ∃ d ∈ polls, s = parse_timestamp d.succeeded_at
        ∧ s = last_completed_at d.succeeded_at d.failed_at := by
  induction polls with
  | nil => exact SyncOutcome.noConfusion h
  | cons d rest ih =>
    rw [wait_cons] at h
    by_cases h1 : parse_timestamp d.failed_at > parse_timestamp prev
    · rw [if_pos h1] at h
      exact SyncOutcome.noConfusion h
    · rw [if_neg h1] at h
      by_cases hg : parse_timestamp d.succeeded_at > parse_timestamp d.failed_at
      · rw [if_pos hg] at h
        by_cases h2 : parse_timestamp d.succeeded_at > parse_timestamp prev
        · rw [if_pos h2] at h
          simp only [SyncOutcome.success.injEq] at h
          obtain ⟨hid, hs⟩ := h
          refine ⟨hs ▸ h2, hid.symm, d, List.mem_cons_self d rest, hs.symm, ?_⟩
          rw [last_completed_at, if_pos hg, hs]
        · rw [if_neg h2] at h
          obtain ⟨hlt, hid, p, hp, hps⟩ := ih h
          exact ⟨hlt, hid, p, List.mem_cons_of_mem d hp, hps⟩
      · rw [if_neg hg, if_neg h1] at h
        obtain ⟨hlt, hid, p, hp, hps⟩ := ih h
        exact ⟨hlt, hid, p, List.mem_cons_of_mem d hp, hps⟩

/-- C5, witness: baseline 10, one poll succeeding at 20; the returned
timestamp exceeds the baseline. -/
theorem wait_success_returns_final_max_witness :
    parse_timestamp (some 10) < 20 :=
  (wait_success_returns_final_max "c1" "c1" (some 10)
    [⟨"srv", "sch", "connected", "scheduled", "manual", false, some 20, some 3⟩]
    20 (by decide)).1

/-- C2, counterexample to the claim as stated.  With baseline 0, a
first poll reporting a fresh success (succeeded_at 5) and a second
poll on which failed_at first exceeds the baseline (failed_at 6), the
loop exits successfully at poll 1 and never raises SyncFailedError at
poll 2 — the claim omits the hypothesis that no earlier poll reports a
fresh success. -/
theorem wait_fresh_failure_claim_counterexample :
    parse_timestamp (ConnectorDetails.failed_at
        ⟨"srv", "sch", "connected", "syncing", "manual", false, some 5, none⟩)
      ≤ parse_timestamp (some 0)
    ∧ parse_timestamp (some 0) < parse_timestamp (ConnectorDetails.failed_at
        ⟨"srv", "sch", "connected", "scheduled", "manual", false, none, some 6⟩)
    ∧ wait_for_fivetran_connector_sync "c1" (some 0)
        [⟨"srv", "sch", "connected", "syncing", "manual", false, some 5, none⟩,
         ⟨"srv", "sch", "connected", "scheduled", "manual", false, none, some 6⟩]
        = .success "c1" 5 := by
  refine ⟨by decide, by decide, by decide⟩

/-- C2, amended: on a trace whose polls before poll N keep both parsed
timestamps at or below the baseline and whose poll N is the first with
parse(failed_at) above the baseline, the loop raises SyncFailedError
exactly at poll N — on the first N-1 polls alone it is still pending —
and the message contains the dashboard-logs URL built from the service
and schema of poll N. -/
theorem wait_fresh_failure_raised_at_first_evidence
    (connector_id : String) (prev : Option Int)
    (before rest : List ConnectorDetails) (d : ConnectorDetails)
    (hpre : ∀ p ∈ before,
      parse_timestamp p.failed_at ≤ parse_timestamp prev
      ∧ parse_timestamp p.succeeded_at ≤ parse_timestamp prev)
    (hd : parse_timestamp prev < parse_timestamp d.failed_at) :
    wait_for_fivetran_connector_sync connector_id prev (before ++ d :: rest)
      = .failure (.syncFailed (syncFailedMsg connector_id d))
    ∧ wait_for_fivetran_connector_sync connector_id prev before = .pending
    ∧ containsSub (syncFailedMsg connector_id d) (urlLogs d.service d.schema) := by
  induction before with
  | nil =>
    refine ⟨?_, rfl, ?_⟩
    · rw [List.nil_append, wait_cons, if_pos hd]
    · exact ⟨"Fivetran sync for connector \"" ++ connector_id ++ "\" failed. " ++
        "Please see logs at ", "",
        by simp [syncFailedMsg, String.append_assoc, String.append_empty]⟩
  | cons p before' ih =>
    have hp := hpre p (List.mem_cons_self p before')
    have hnf : ¬ parse_timestamp p.failed_at > parse_timestamp prev :=
      not_lt.mpr hp.1
    have hcur : ¬ (if parse_timestamp p.succeeded_at > parse_timestamp p.failed_at
        then parse_timestamp p.succeeded_at else parse_timestamp p.failed_at)
        > parse_timestamp prev := by
      by_cases hg : parse_timestamp p.succeeded_at > parse_timestamp p.failed_at
      · rw [if_pos hg]; exact not_lt.mpr hp.2
      · rw [if_neg hg]; exact hnf
    obtain ⟨h1, h2, h3⟩ := ih (fun q hq => hpre q (List.mem_cons_of_mem p hq))
    refine ⟨?_, ?_, h3⟩
    · rw [List.cons_append, wait_cons, if_neg hnf, if_neg hcur]
      exact h1
    · rw [wait_cons, if_neg hnf, if_neg hcur]
      exact h2

/-- C2, witness: baseline 0, a quiet first poll, then failed_at 6 on
poll 2: the loop raises the SyncFailedError at poll 2. -/
theorem wait_fresh_failure_raised_at_first_evidence_witness :
    wait_for_fivetran_connector_sync "c1" (some 0)
      ([⟨"srv", "sch", "connected", "syncing", "manual", false, none, none⟩] ++
        ⟨"srv", "sch", "connected", "scheduled", "manual", false, none, some 6⟩ :: [])
      = .failure (.syncFailed (syncFailedMsg "c1"
          ⟨"srv", "sch", "connected", "scheduled", "manual", false, none, some 6⟩)) :=
  (wait_fresh_failure_raised_at_first_evidence "c1" (some 0)
    [⟨"srv", "sch", "connected", "syncing", "manual", false, none, none⟩] []
    ⟨"srv", "sch", "connected", "scheduled", "manual", false, none, some 6⟩
    (by decide) (by decide)).1

end PrefectFivetran
